import Mathlib

/-!
Verification of the exception-to-handler dispatch engine of
`sanic/handlers.py` (class `ErrorHandler`): registration (`add`),
cached hierarchy-aware resolution (`lookup`), the dispatch guard
(`response`), the default path (`default`) and its logging policy (`log`).

The embedding is shallow: the exception-type universe is a parameter `E`
together with a `TypeSystem` supplying Python's `type.mro` and the
distinguished `BaseException` class; the shared dictionary
`cached_handlers` (Python dict holding both registered entries and cache
writes, with possibly-`None` values) is a function
`E × Option String → Option (Option H)` where the outer `Option` is key
presence and the inner one is the stored value (`none` = Python `None`,
a cached absence).  Handlers are opaque for the registry; for the
dispatch guard they are records carrying a `__name__` and a behaviour
that may return a response, return `None`, or raise.
-/

/-- Python `type.mro` and the universal base fault type (`BaseException`)
for an exception-type universe `E`. -/
structure TypeSystem (E : Type) where
  mro : E → List E
  baseExc : E

/-- The dictionary type of `ErrorHandler.cached_handlers`:
keys are `(exception class, optional route name)`, stored values are
`Optional[RouteHandler]` (so a present key may hold `None`). -/
def HDict (E H : Type) : Type := E × Option String → Option (Option H)

/-- Python dict lookup `d.get(k)` / `k in d`. -/
def dget {E H : Type} (d : HDict E H) (k : E × Option String) : Option (Option H) := d k

/-- Python dict assignment `d[k] = v`. -/
def dset {E H : Type} [DecidableEq E] (d : HDict E H) (k : E × Option String)
    (v : Option H) : HDict E H :=
  fun k2 => if k2 = k then some v else d k2

/-- State of `sanic.handlers.ErrorHandler`: the deprecated `handlers`
list, the `cached_handlers` dict (entries and cache share this one dict,
as in the source), the `debug` flag and the `fallback` setting. -/
structure ErrorHandler (E H : Type) where
  handlers : List (E × H)
  cached_handlers : HDict E H
  debug : Bool
  fallback : String

/-- Embeds `ErrorHandler.__init__`. -/
def ErrorHandler.new (E H : Type) : ErrorHandler E H :=
  { handlers := [], cached_handlers := fun _ => none, debug := false, fallback := "auto" }

/-- A Python exception instance: its runtime class and its optional
`quiet` attribute (`none` models the attribute being absent, so that
`getattr(exception, "quiet", False)` yields the default). -/
structure ExcInstance (E : Type) where
  cls : E
  quiet : Option Bool

/-- Embeds `ErrorHandler.add`: appends to the deprecated `handlers` list, then
`if route_names:` (Python truthiness: `None` and `[]` are falsy) writes
one dict entry per route, else a single global `(exception, None)` entry. -/
def ErrorHandler.add {E H : Type} [DecidableEq E] (eh : ErrorHandler E H)
    (exception : E) (handler : H) (route_names : Option (List String)) :
    ErrorHandler E H :=
  let eh1 : ErrorHandler E H :=
    { eh with handlers := eh.handlers ++ [(exception, handler)] }
  match route_names with
  | some (r :: rs) =>
      (r :: rs).foldl
        (fun acc route =>
          { acc with
            cached_handlers :=
              dset acc.cached_handlers (exception, some route) (some handler) })
        eh1
  | _ =>
      { eh1 with
        cached_handlers := dset eh1.cached_handlers (exception, none) (some handler) }

/-- First loop of `ErrorHandler.lookup`:
`for name in (route_name, None): handler = self.cached_handlers.get(...);
if handler: return handler`.  Only a present, non-`None` value (a truthy
Python callable) is returned; a cached absence falls through. -/
def exactProbe {E H : Type} (d : HDict E H) (cls : E) :
    List (Option String) → Option H
  | [] => none
  | n :: rest =>
      match dget d (cls, n) with
      | some (some h) => some h
      | _ => exactProbe d cls rest

/-- Inner loop of the second (hierarchy) probe of `ErrorHandler.lookup`:
walk the mro list; `if exception_key in self.cached_handlers` returns the
stored value (possibly `None`); `if ancestor is BaseException: break`. -/
def mroProbe {E H : Type} [DecidableEq E] (d : HDict E H) (n : Option String)
    (base : E) : List E → Option (Option H)
  | [] => none
  | a :: rest =>
      match dget d (a, n) with
      | some v => some v
      | none => if a = base then none else mroProbe d n base rest

/-- Outer loop of the hierarchy probe: `for name in (route_name, None)`. -/
def scopeLoop {E H : Type} [DecidableEq E] (d : HDict E H) (ts : TypeSystem E)
    (cls : E) : List (Option String) → Option (Option H)
  | [] => none
  | n :: rest =>
      match mroProbe d n ts.baseExc (ts.mro cls) with
      | some v => some v
      | none => scopeLoop d ts cls rest

/-- Embeds `ErrorHandler.lookup(exception, route_name)`: exact probe over
`(route_name, None)`, then hierarchy probe over the mro with cache
write-back at key `(exception_class, route_name)`, then a cached miss. -/
def ErrorHandler.lookup {E H : Type} [DecidableEq E] (ts : TypeSystem E)
    (eh : ErrorHandler E H) (exception : ExcInstance E)
    (route_name : Option String) : Option H × ErrorHandler E H :=
  match exactProbe eh.cached_handlers exception.cls [route_name, none] with
  | some h => (some h, eh)
  | none =>
      match scopeLoop eh.cached_handlers ts exception.cls [route_name, none] with
      | some v =>
          (v, { eh with
                cached_handlers :=
                  dset eh.cached_handlers (exception.cls, route_name) v })
      | none =>
          (none, { eh with
                   cached_handlers :=
                     dset eh.cached_handlers (exception.cls, route_name) none })

/-- The request object, as consumed by this subsystem: `request.name`
(route scope, may be `None`), `request.url` (`none` models the attribute
access raising `AttributeError`), and the application configuration flag
`NOISY_EXCEPTIONS` (`none` models the attribute being absent, so
`getattr` yields its default). -/
structure Request where
  name : Option String
  url : Option String
  noisy : Option Bool

/-- The response object, restricted to the accessors this subsystem
produces: body text and HTTP status. -/
structure Response where
  body : String
  status : Nat
deriving DecidableEq

/-- Embeds `sanic.response.text(body, status)`. -/
def text (body : String) (status : Nat) : Response :=
  { body := body, status := status }

/-- A registered handler as invoked by the dispatch guard: its
`__name__` and its behaviour, which may raise (`Except.error`), return
`None` (`Except.ok none`) or return a response. -/
structure PyHandler (E : Type) where
  name : String
  call : Option Request → ExcInstance E → Except Unit (Option Response)

/-- The external rendering collaborator
`exception_response(request, exception, debug, fallback)`; it may raise. -/
def Renderer (E : Type) : Type :=
  Option Request → ExcInstance E → Bool → String → Except Unit Response

/-- Embeds `ErrorHandler.log`: reads `getattr(exception, "quiet", False)`, then
`getattr(request.app.config, "NOISY_EXCEPTIONS", False)` — which raises
`AttributeError` when `request` is `None` — and logs iff
`quiet is False or noisy is True`.  Returns whether a log entry was
produced. -/
def ErrorHandler.log {E : Type} (request : Option Request)
    (exception : ExcInstance E) : Except Unit Bool :=
  let quiet := exception.quiet.getD false
  match request with
  | none => Except.error ()
  | some req =>
      let noisy := req.noisy.getD false
      if quiet == false || noisy == true then Except.ok true else Except.ok false

/-- Embeds `ErrorHandler.default`: log then delegate to the external renderer
with the configured `debug` and `fallback`. -/
def ErrorHandler.default {E : Type} (renderer : Renderer E)
    (eh : ErrorHandler E (PyHandler E)) (request : Option Request)
    (exception : ExcInstance E) : Except Unit Response :=
  match ErrorHandler.log request exception with
  | Except.error e => Except.error e
  | Except.ok _ => renderer request exception eh.debug eh.fallback

/-- Python `repr` of a URL string (single quotes around the text). -/
def pyRepr (s : String) : String :=
  String.singleton (Char.ofNat 39) ++ s ++ String.singleton (Char.ofNat 39)

/-- The `except`-block text
`'Exception raised in exception handler "%s" for uri: %s'` after
`%`-formatting. -/
def doubleFaultMessage (handlerName url : String) : String :=
  "Exception raised in exception handler \"" ++ handlerName ++ "\" for uri: " ++ url

/-- The production-mode double-fault body. -/
def genericDoubleFaultBody : String := "An error occurred while handling an error"

/-- Embeds `route_name = request.name if request else None`. -/
def routeNameOf (request : Option Request) : Option String :=
  match request with
  | some r => r.name
  | none => none

/-- Embeds `ErrorHandler.response(request, exception)`: determine the route
name, resolve, run the handler inside `try`, fall back to `default`
when there is no handler or it returned `None`; on an exception, compute
the best-effort URL (`repr(request.url)`, or `"unknown"` on
`AttributeError`), then evaluate `handler.__name__` — which raises
`AttributeError` when `handler` is `None` — and return the debug or
generic 500 text response. -/
def ErrorHandler.response {E : Type} [DecidableEq E] (ts : TypeSystem E)
    (renderer : Renderer E) (eh : ErrorHandler E (PyHandler E))
    (request : Option Request) (exception : ExcInstance E) :
    Except Unit Response × ErrorHandler E (PyHandler E) :=
  match eh.lookup ts exception (routeNameOf request) with
  | (handler, eh1) =>
      let tryResult : Except Unit Response :=
        match handler with
        | some h =>
            match h.call request exception with
            | Except.error e => Except.error e
            | Except.ok (some resp) => Except.ok resp
            | Except.ok none => ErrorHandler.default renderer eh1 request exception
        | none => ErrorHandler.default renderer eh1 request exception
      match tryResult with
      | Except.ok resp => (Except.ok resp, eh1)
      | Except.error _ =>
          let url : String :=
            match request with
            | some r =>
                match r.url with
                | some u => pyRepr u
                | none => "unknown"
            | none => "unknown"
          match handler with
          | none => (Except.error (), eh1)
          | some h =>
              if eh.debug then
                (Except.ok (text (doubleFaultMessage h.name url) 500), eh1)
              else
                (Except.ok (text genericDoubleFaultBody 500), eh1)

/-- A concrete exception-class universe used for witnesses and
counterexamples: a linear chain `cA ← cB ← cC`, helper classes `cX` and
`cT`, `Exception`, `BaseException` and `object`. -/
inductive PyType : Type
  | cA | cB | cC | cX | cT | cExc | cBase | cObj
deriving DecidableEq

/-- Single-inheritance hierarchy: `class cA(Exception)`, `class cB(cA)`,
`class cC(cB)`, `class cX(Exception)`, `class cT(Exception)`. -/
def tsLinear : TypeSystem PyType :=
  { mro := fun c =>
      match c with
      | PyType.cC => [PyType.cC, PyType.cB, PyType.cA, PyType.cExc, PyType.cBase, PyType.cObj]
      | PyType.cB => [PyType.cB, PyType.cA, PyType.cExc, PyType.cBase, PyType.cObj]
      | PyType.cA => [PyType.cA, PyType.cExc, PyType.cBase, PyType.cObj]
      | PyType.cX => [PyType.cX, PyType.cExc, PyType.cBase, PyType.cObj]
      | PyType.cT => [PyType.cT, PyType.cExc, PyType.cBase, PyType.cObj]
      | PyType.cExc => [PyType.cExc, PyType.cBase, PyType.cObj]
      | PyType.cBase => [PyType.cBase, PyType.cObj]
      | PyType.cObj => [PyType.cObj],
    baseExc := PyType.cBase }

/-- Multiple-inheritance hierarchy: as `tsLinear`, except
`class cB(Exception)` and `class cC(cB, cX)`, whose C3-linearized mro is
`[cC, cB, cX, Exception, BaseException, object]`. -/
def tsDiamond : TypeSystem PyType :=
  { mro := fun c =>
      match c with
      | PyType.cC => [PyType.cC, PyType.cB, PyType.cX, PyType.cExc, PyType.cBase, PyType.cObj]
      | PyType.cB => [PyType.cB, PyType.cExc, PyType.cBase, PyType.cObj]
      | PyType.cA => [PyType.cA, PyType.cExc, PyType.cBase, PyType.cObj]
      | PyType.cX => [PyType.cX, PyType.cExc, PyType.cBase, PyType.cObj]
      | PyType.cT => [PyType.cT, PyType.cExc, PyType.cBase, PyType.cObj]
      | PyType.cExc => [PyType.cExc, PyType.cBase, PyType.cObj]
      | PyType.cBase => [PyType.cBase, PyType.cObj]
      | PyType.cObj => [PyType.cObj],
    baseExc := PyType.cBase }

/-- Modelled from the spec (resolution algorithm, step 3): the exact-entry
probe — `for scope in [routeScope, None]`, check the entry table for key
`(runtimeType, scope)`; if found, return that handler. -/
def specExact {E H : Type} (entries : HDict E H) (cls : E) :
    List (Option String) → Option H
  | [] => none
  | n :: rest =>
      match entries (cls, n) with
      | some (some h) => some h
      | _ => specExact entries cls rest

/-- Modelled from the spec (resolution algorithm, step 4, inner walk):
walk the ancestor chain from most-specific to least-specific, returning
the first entry found, and stop once the universal base type has been
checked. -/
def specWalk {E H : Type} [DecidableEq E] (entries : HDict E H)
    (n : Option String) (base : E) : List E → Option H
  | [] => none
  | a :: rest =>
      match entries (a, n) with
      | some (some h) => some h
      | _ => if a = base then none else specWalk entries n base rest

/-- Modelled from the spec (resolution algorithm, steps 1–4, without the
cache of steps 2 and 5): uncached resolution over the registered
entries — exact probe route-scope first then global, then for
`scope in [routeScope, None]` the ancestor chain of the runtime type
(excluding the runtime type itself). -/
def specUncachedResolve {E H : Type} [DecidableEq E] (ts : TypeSystem E)
    (entries : HDict E H) (cls : E) (rn : Option String) : Option H :=
  match specExact entries cls [rn, none] with
  | some h => some h
  | none =>
      match specWalk entries rn ts.baseExc ((ts.mro cls).drop 1) with
      | some h => some h
      | none => specWalk entries none ts.baseExc ((ts.mro cls).drop 1)

/-- An exception instance of class `c` with no `quiet` attribute. -/
def inst (c : PyType) : ExcInstance PyType := { cls := c, quiet := none }

/-- Python truthiness of a `dict.get` result: only a present, non-`None`
value is truthy. -/
def isTruthy {H : Type} : Option (Option H) → Bool
  | some (some _) => true
  | _ => false

/-- Holds when `sub` occurs as a contiguous substring of `s`. -/
def strContains (s sub : String) : Prop := sub.data <:+: s.data

/-- The dict holds no `None` values: every present key maps to a real
handler.  This is the state of the dict while only `add` has run —
`add` never stores `None`; only `lookup` does. -/
def NoGarbage {E H : Type} (d : HDict E H) : Prop := ∀ k, d k ≠ some none

/-- Registry states reachable from a fresh `ErrorHandler` by `add`
operations only: the claim precondition "all registration completes
before the first resolution". -/
inductive AddReachable {E H : Type} [DecidableEq E] : ErrorHandler E H → Prop
  | empty : AddReachable (ErrorHandler.new E H)
  | step {eh : ErrorHandler E H} (exception : E) (handler : H)
      (route_names : Option (List String)) :
      AddReachable eh → AddReachable (eh.add exception handler route_names)

/-- A rendering collaborator that always succeeds (never raises). -/
def okRenderer : Renderer PyType := fun _ _ _ _ => Except.ok (text "rendered" 400)

/-- Registry for the C1 scenario: handler `1` for the ancestor `cB`
under route scope `"r"`, handler `2` for the exact type `cC` globally. -/
def c1Registry : ErrorHandler PyType Nat :=
  (ErrorHandler.new PyType Nat).add PyType.cB 1 (some ["r"]) |>.add PyType.cC 2 none

/-- Registry for the C3 scenario (under `tsDiamond`): handler `1` for
`cX` under route scope `"r"`, handler `2` for `cExc` globally — built by
`add` calls only. -/
def c3Registry : ErrorHandler PyType Nat :=
  (ErrorHandler.new PyType Nat).add PyType.cX 1 (some ["r"]) |>.add PyType.cExc 2 none

/-- State of `c3Registry` after one resolve of a `cB` instance at scope `"r"`:
that resolve finds the global `cExc` entry and caches it at
`(cB, "r")`. -/
def c3AfterFirstResolve : ErrorHandler PyType Nat :=
  (c3Registry.lookup tsDiamond (inst PyType.cB) (some "r")).2

/-- The request URL text the double-fault response reports: the URL when
the request has one, `"unknown"` otherwise. -/
def urlText (request : Option Request) : String :=
  match request with
  | some r =>
      match r.url with
      | some u => u
      | none => "unknown"
  | none => "unknown"

/-- A registered handler whose invocation always raises. -/
def boomHandler : PyHandler PyType :=
  { name := "boomHandler", call := fun _ _ => Except.error () }

/-- Dispatch-guard registry for the C5 witness: `boomHandler` registered
globally for `cT`, debug mode on. -/
def c5Registry : ErrorHandler PyType (PyHandler PyType) :=
  ({ ErrorHandler.new PyType (PyHandler PyType) with debug := true }).add
    PyType.cT boomHandler none

/-- A request on route `"r"` with a URL and no `NOISY_EXCEPTIONS` flag. -/
def sampleRequest : Request :=
  { name := some "r", url := some "http://x/y", noisy := none }

/-- Registry for the C7 scenario: handler `1` for `(cT, "routeA")`,
handler `2` for `(cT, None)`. -/
def c7Registry : ErrorHandler PyType Nat :=
  (ErrorHandler.new PyType Nat).add PyType.cT 1 (some ["routeA"])
    |>.add PyType.cT 2 none

/-- Registry for the C6 witness: handler `3` for the ancestor `cB` and
handler `4` for the exact type `cC`, both global. -/
def c6Registry : ErrorHandler PyType Nat :=
  (ErrorHandler.new PyType Nat).add PyType.cB 3 none |>.add PyType.cC 4 none

/-- C1 counterexample.  The claim predicts that with handler `1`
registered for the ancestor `cB` under route scope `"r"` and handler `2`
registered for the exact type `cC` globally, resolving a `cC` instance
with scope `"r"` returns the route-specific ancestor handler `1`.  The
code's first loop checks the exact type at both scopes before any
ancestor, so the global exact entry `2` wins. -/
theorem C1_counterexample :
    (c1Registry.lookup tsLinear (inst PyType.cC) (some "r")).1 = some 2 ∧
    (c1Registry.lookup tsLinear (inst PyType.cC) (some "r")).1 ≠ some 1 := by
  decide

/-- C1 (amended): the precedence order is route-specific exact type >
global exact type > route-specific ancestor (nearest first) > global
ancestor (nearest first).  In particular a global entry for the exact
runtime type beats every ancestor entry, route-scoped or not: whenever
the route-scoped exact probe finds nothing truthy and a global exact
entry exists, that global handler is returned, no matter which ancestor
entries are registered. -/
theorem C1_theorem {E H : Type} [DecidableEq E] (ts : TypeSystem E)
    (eh : ErrorHandler E H) (exc : ExcInstance E) (rn : Option String) (h2 : H)
    (hroute : isTruthy (dget eh.cached_handlers (exc.cls, rn)) = false)
    (hglobal : dget eh.cached_handlers (exc.cls, none) = some (some h2)) :
    (eh.lookup ts exc rn).1 = some h2 := by
  have h1 : exactProbe eh.cached_handlers exc.cls [rn, none] = some h2 := by
    rcases hv : dget eh.cached_handlers (exc.cls, rn) with _ | v
    · simp [exactProbe, hv, hglobal]
    · rcases v with _ | h
      · simp [exactProbe, hv, hglobal]
      · rw [hv] at hroute
        simp [isTruthy] at hroute
  simp [ErrorHandler.lookup, h1]

/-- C1 witness: in the counterexample registry, the route-scoped exact
probe is empty and `cC` has the truthy global entry `2`, so the amended
precedence applies and yields the global exact handler. -/
theorem C1_witness :
    (c1Registry.lookup tsLinear (inst PyType.cC) (some "r")).1 = some 2 :=
  C1_theorem tsLinear c1Registry (inst PyType.cC) (some "r") 2 (by decide) (by decide)

/-- C2: with no request object (`request = None`), an empty registry and
a rendering collaborator that never raises, `response` itself raises —
`log` evaluates `request.app.config` (AttributeError), the containment
block then evaluates `handler.__name__` with `handler = None`
(AttributeError), and that second fault escapes to the caller, contrary
to the terminal-boundary guarantee. -/
theorem C2_theorem :
    ((ErrorHandler.new PyType (PyHandler PyType)).response tsLinear okRenderer none
      (inst PyType.cT)).1 = Except.error () := rfl

/-- C4 counterexample.  The claim predicts that after `resolve` has
cached a miss for the exact pair `(cT, None)`, an `add` for that same
type and scope is shadowed and a later resolve still returns absence.
Since registered entries and the cache share one dict, the `add`
overwrites the cached `None` and the later resolve returns the new
handler `7`. -/
theorem C4_counterexample :
    ((ErrorHandler.new PyType Nat).lookup tsLinear (inst PyType.cT) none).1 = none ∧
    ((((ErrorHandler.new PyType Nat).lookup tsLinear (inst PyType.cT) none).2.add
        PyType.cT 7 none).lookup tsLinear (inst PyType.cT) none).1 = some 7 := by
  decide

/-- C4 (amended): a stale cached absence shadows a handler registered
afterwards for a *strict ancestor* of the resolved type — after a miss
is cached for `(cC, None)`, registering a handler for the base class
`cB` is invisible and resolving `cC` still returns absence.  For the
exact same type/scope pair, however, `add` overwrites the cached absence
(entries and cache are one dict) and the new handler is returned. -/
theorem C4_theorem :
    ((((ErrorHandler.new PyType Nat).lookup tsLinear (inst PyType.cC) none).2.add
        PyType.cB 5 none).lookup tsLinear (inst PyType.cC) none).1 = none ∧
    ((((ErrorHandler.new PyType Nat).lookup tsLinear (inst PyType.cT) none).2.add
        PyType.cT 7 none).lookup tsLinear (inst PyType.cT) none).1 = some 7 := by
  decide

/-- C6: within a single scope, resolution follows type specificity.
(1) Whenever the dict holds a truthy entry for the exact runtime type at
the global scope, a global-scope resolve returns it, whatever ancestor
entries exist.  (2) For the 3-level hierarchy `cA ← cB ← cC` with
handlers only for `cA` and `cB`, resolving a `cC` instance returns the
`cB` handler.  (3) The ancestor walk reaches `BaseException`.  (4) It
checks nothing beyond it: a handler registered for `object` is never
found. -/
theorem C6_theorem :
    (∀ (E H : Type) [DecidableEq E] (ts : TypeSystem E) (eh : ErrorHandler E H)
        (exc : ExcInstance E) (h : H),
        dget eh.cached_handlers (exc.cls, none) = some (some h) →
        (eh.lookup ts exc none).1 = some h) ∧
    ((ErrorHandler.new PyType Nat).add PyType.cA 1 none |>.add PyType.cB 2 none
      |>.lookup tsLinear (inst PyType.cC) none).1 = some 2 ∧
    ((ErrorHandler.new PyType Nat).add PyType.cBase 9 none
      |>.lookup tsLinear (inst PyType.cC) none).1 = some 9 ∧
    ((ErrorHandler.new PyType Nat).add PyType.cObj 9 none
      |>.lookup tsLinear (inst PyType.cC) none).1 = none := by
  refine ⟨?_, by decide, by decide, by decide⟩
  intro E H _ ts eh exc h hx
  have h1 : exactProbe eh.cached_handlers exc.cls [none, none] = some h := by
    simp [exactProbe, hx]
  simp [ErrorHandler.lookup, h1]

/-- C6 witness: with handler `3` for the ancestor `cB` and handler `4`
for the exact type `cC` both registered globally, resolving a `cC`
instance returns the exact-type handler `4`. -/
theorem C6_witness :
    (c6Registry.lookup tsLinear (inst PyType.cC) none).1 = some 4 :=
  C6_theorem.1 PyType Nat tsLinear c6Registry (inst PyType.cC) 4 (by decide)

/-- C7: with handler `1` for `(cT, "routeA")` and handler `2` for
`(cT, None)`, resolving a `cT` instance with scope `"routeA"` returns
`1`, with scope `"routeB"` returns `2`, and with no scope returns `2`. -/
theorem C7_theorem :
    (c7Registry.lookup tsLinear (inst PyType.cT) (some "routeA")).1 = some 1 ∧
    (c7Registry.lookup tsLinear (inst PyType.cT) (some "routeB")).1 = some 2 ∧
    (c7Registry.lookup tsLinear (inst PyType.cT) none).1 = some 2 := by
  decide

/-- C8: `lookup` is a total function of the registry state (the
embedding returns a value for every input, so no exception is raised),
and absence is an ordinary cached outcome: whenever it returns absence,
the miss has been written to the cache under the exact
`(runtime type, route scope)` key. -/
theorem C8_theorem {E H : Type} [DecidableEq E] (ts : TypeSystem E)
    (eh : ErrorHandler E H) (exc : ExcInstance E) (rn : Option String)
    (hmiss : (eh.lookup ts exc rn).1 = none) :
    ((eh.lookup ts exc rn).2).cached_handlers (exc.cls, rn) = some none := by
  cases h1 : exactProbe eh.cached_handlers exc.cls [rn, none] with
  | some h => simp [ErrorHandler.lookup, h1] at hmiss
  | none =>
      cases h2 : scopeLoop eh.cached_handlers ts exc.cls [rn, none] with
      | some v =>
          have hv : v = none := by simpa [ErrorHandler.lookup, h1, h2] using hmiss
          simp [ErrorHandler.lookup, h1, h2, hv, dset]
      | none => simp [ErrorHandler.lookup, h1, h2, dset]

/-- C8 witness: resolving `cT` against the empty registry returns
absence, and the miss is cached at `(cT, None)`. -/
theorem C8_witness :
    (((ErrorHandler.new PyType Nat).lookup tsLinear (inst PyType.cT) none).2).cached_handlers
      (PyType.cT, none) = some none :=
  C8_theorem tsLinear (ErrorHandler.new PyType Nat) (inst PyType.cT) none (by decide)

/-- C9: on the default path, with the `quiet` attribute and the
`NOISY_EXCEPTIONS` flag defaulting to `false` when absent, a log entry
is produced exactly when the exception is not quiet or the noisy
override is set. -/
theorem C9_theorem {E : Type} (req : Request) (exc : ExcInstance E) :
    ErrorHandler.log (some req) exc
      = Except.ok (!(exc.quiet.getD false) || req.noisy.getD false) ∧
    (ErrorHandler.log (some req) exc = Except.ok true ↔
      (exc.quiet.getD false = false ∨ req.noisy.getD false = true)) := by
  cases hq : exc.quiet.getD false <;> cases hn : req.noisy.getD false <;>
    simp [ErrorHandler.log, hq, hn]

/-- C10: `add` with an empty route-scope list behaves exactly like `add`
with no scopes: the resulting registry is identical, the single global
entry is created, and no per-scope entry is touched. -/
theorem C10_theorem {E H : Type} [DecidableEq E] (eh : ErrorHandler E H)
    (exception : E) (handler : H) :
    eh.add exception handler (some []) = eh.add exception handler none ∧
    (eh.add exception handler (some [])).cached_handlers (exception, none)
      = some (some handler) ∧
    ∀ r : String, (eh.add exception handler (some [])).cached_handlers
      (exception, some r) = eh.cached_handlers (exception, some r) := by
  refine ⟨rfl, ?_, ?_⟩
  · simp [ErrorHandler.add, dset]
  · intro r
    simp [ErrorHandler.add, dset]

theorem strContains_of_data (s sub : String) (pre post : List Char)
    (heq : s.data = pre ++ sub.data ++ post) : strContains s sub :=
  ⟨pre, post, heq.symm⟩

set_option maxRecDepth 4000 in
theorem C5_theorem {E : Type} [DecidableEq E] (ts : TypeSystem E)
    (renderer : Renderer E) (eh : ErrorHandler E (PyHandler E))
    (request : Option Request) (exc : ExcInstance E) (h : PyHandler E)
    (hres : (eh.lookup ts exc (routeNameOf request)).1 = some h)
    (hraise : h.call request exc = Except.error ()) :
    ∃ resp : Response,
      (ErrorHandler.response ts renderer eh request exc).1 = Except.ok resp ∧
      resp.status = 500 ∧
      (eh.debug = true →
        strContains resp.body h.name ∧ strContains resp.body (urlText request)) ∧
      (eh.debug = false → resp.body = genericDoubleFaultBody) := by
  rcases hlk : eh.lookup ts exc (routeNameOf request) with ⟨r1, eh2⟩
  rw [hlk] at hres
  have hr1 : r1 = some h := hres
  subst hr1
  rcases request with _ | r
  · cases hdbg : eh.debug
    · refine ⟨text genericDoubleFaultBody 500, ?_, rfl, ?_, fun _ => rfl⟩
      · simp [ErrorHandler.response, hlk, hraise, hdbg]
      · intro hcontra
        exact absurd hcontra (by decide)
    · refine ⟨text (doubleFaultMessage h.name "unknown") 500, ?_, rfl, ?_, ?_⟩
      · simp [ErrorHandler.response, hlk, hraise, hdbg]
      · intro _
        constructor
        · refine strContains_of_data _ _
            ("Exception raised in exception handler \"").data
            ("\" for uri: " ++ "unknown").data ?_
          simp [text, doubleFaultMessage, String.data_append]
        · refine strContains_of_data _ _
            (("Exception raised in exception handler \"" ++ h.name
              ++ "\" for uri: ").data) [] ?_
          simp [text, doubleFaultMessage, urlText, String.data_append]
      · intro hcontra
        exact absurd hcontra (by decide)
  · rcases hu : r.url with _ | u
    · cases hdbg : eh.debug
      · refine ⟨text genericDoubleFaultBody 500, ?_, rfl, ?_, fun _ => rfl⟩
        · simp [ErrorHandler.response, hlk, hraise, hdbg, hu]
        · intro hcontra
          exact absurd hcontra (by decide)
      · refine ⟨text (doubleFaultMessage h.name "unknown") 500, ?_, rfl, ?_, ?_⟩
        · simp [ErrorHandler.response, hlk, hraise, hdbg, hu]
        · intro _
          constructor
          · refine strContains_of_data _ _
              ("Exception raised in exception handler \"").data
              ("\" for uri: " ++ "unknown").data ?_
            simp [text, doubleFaultMessage, String.data_append]
          · refine strContains_of_data _ _
              (("Exception raised in exception handler \"" ++ h.name
                ++ "\" for uri: ").data) [] ?_
            simp [text, doubleFaultMessage, urlText, hu, String.data_append]
        · intro hcontra
          exact absurd hcontra (by decide)
    · cases hdbg : eh.debug
      · refine ⟨text genericDoubleFaultBody 500, ?_, rfl, ?_, fun _ => rfl⟩
        · simp [ErrorHandler.response, hlk, hraise, hdbg, hu]
        · intro hcontra
          exact absurd hcontra (by decide)
      · refine ⟨text (doubleFaultMessage h.name (pyRepr u)) 500, ?_, rfl, ?_, ?_⟩
        · simp [ErrorHandler.response, hlk, hraise, hdbg, hu]
        · intro _
          constructor
          · refine strContains_of_data _ _
              ("Exception raised in exception handler \"").data
              ("\" for uri: " ++ pyRepr u).data ?_
            simp [text, doubleFaultMessage, String.data_append]
          · refine strContains_of_data _ _
              (("Exception raised in exception handler \"" ++ h.name
                ++ "\" for uri: ").data ++ [Char.ofNat 39]) [Char.ofNat 39] ?_
            simp [text, doubleFaultMessage, urlText, hu, pyRepr,
              String.singleton, String.data_push, String.data_append]
        · intro hcontra
          exact absurd hcontra (by decide)

theorem C5_witness :
    ∃ resp : Response,
      (ErrorHandler.response tsLinear okRenderer c5Registry (some sampleRequest)
        (inst PyType.cT)).1 = Except.ok resp ∧
      resp.status = 500 ∧
      (c5Registry.debug = true →
        strContains resp.body boomHandler.name ∧
        strContains resp.body (urlText (some sampleRequest))) ∧
      (c5Registry.debug = false → resp.body = genericDoubleFaultBody) :=
  C5_theorem tsLinear okRenderer c5Registry (some sampleRequest) (inst PyType.cT)
    boomHandler rfl rfl

theorem dset_same {E H : Type} [DecidableEq E] (d : HDict E H)
    (k : E × Option String) (v : Option H) : dget (dset d k v) k = some v := by
  simp [dget, dset]

theorem dset_other {E H : Type} [DecidableEq E] (d : HDict E H)
    (k k2 : E × Option String) (v : Option H) (h : k2 ≠ k) :
    dget (dset d k v) k2 = dget d k2 := by
  simp [dget, dset, h]

theorem exactProbe_none_head {E H : Type} (d : HDict E H) (cls : E)
    (n : Option String) (l : List (Option String))
    (h : exactProbe d cls (n :: l) = none) :
    (∀ x : H, d (cls, n) ≠ some (some x)) ∧ exactProbe d cls l = none := by
  rcases hv : d (cls, n) with _ | v
  · refine ⟨by simp [hv], ?_⟩
    simpa [exactProbe, dget, hv] using h
  · rcases v with _ | x
    · refine ⟨by simp [hv], ?_⟩
      simpa [exactProbe, dget, hv] using h
    · exfalso
      simp [exactProbe, dget, hv] at h

theorem exactProbe_eq_specExact {E H : Type} (d : HDict E H) (cls : E) :
    ∀ l : List (Option String), exactProbe d cls l = specExact d cls l := by
  intro l
  induction l with
  | nil => rfl
  | cons n rest ih =>
      rcases hv : d (cls, n) with _ | v
      · simp [exactProbe, specExact, dget, hv, ih]
      · rcases v with _ | x
        · simp [exactProbe, specExact, dget, hv, ih]
        · simp [exactProbe, specExact, dget, hv]

theorem mroProbe_eq_specWalk {E H : Type} [DecidableEq E] (d : HDict E H)
    (base : E) (hng : NoGarbage d) (n : Option String) :
    ∀ l : List E, mroProbe d n base l = Option.map some (specWalk d n base l) := by
  intro l
  induction l with
  | nil => rfl
  | cons a rest ih =>
      rcases hv : d (a, n) with _ | v
      · by_cases hb : a = base
        · subst hb
          simp [mroProbe, specWalk, dget, hv]
        · simp [mroProbe, specWalk, dget, hv, hb, ih]
      · rcases v with _ | x
        · exact absurd hv (hng (a, n))
        · simp [mroProbe, specWalk, dget, hv]

theorem lookup_eq_spec {E H : Type} [DecidableEq E] (ts : TypeSystem E)
    (eh : ErrorHandler E H) (exc : ExcInstance E) (rn : Option String)
    (rest : List E) (hng : NoGarbage eh.cached_handlers)
    (hmro : ts.mro exc.cls = exc.cls :: rest)
    (hbase : exc.cls ≠ ts.baseExc) :
    (eh.lookup ts exc rn).1
      = specUncachedResolve ts eh.cached_handlers exc.cls rn := by
  have hex := exactProbe_eq_specExact eh.cached_handlers exc.cls
  cases h1 : exactProbe eh.cached_handlers exc.cls [rn, none] with
  | some h =>
      have hsx : specExact eh.cached_handlers exc.cls [rn, none] = some h :=
        (hex [rn, none]).symm.trans h1
      simp [ErrorHandler.lookup, h1, specUncachedResolve, hsx]
  | none =>
      have hsx : specExact eh.cached_handlers exc.cls [rn, none] = none :=
        (hex [rn, none]).symm.trans h1
      obtain ⟨ht1, h1b⟩ := exactProbe_none_head _ _ _ _ h1
      obtain ⟨ht2, _⟩ := exactProbe_none_head _ _ _ _ h1b
      have hd1 : eh.cached_handlers (exc.cls, rn) = none := by
        rcases hv : eh.cached_handlers (exc.cls, rn) with _ | v
        · rfl
        · rcases v with _ | x
          · exact absurd hv (hng _)
          · exact absurd hv (ht1 x)
      have hd2 : eh.cached_handlers (exc.cls, none) = none := by
        rcases hv : eh.cached_handlers (exc.cls, none) with _ | v
        · rfl
        · rcases v with _ | x
          · exact absurd hv (hng _)
          · exact absurd hv (ht2 x)
      have hw := mroProbe_eq_specWalk eh.cached_handlers ts.baseExc hng
      have hs1 : mroProbe eh.cached_handlers rn ts.baseExc (ts.mro exc.cls)
          = Option.map some (specWalk eh.cached_handlers rn ts.baseExc rest) := by
        rw [hmro]
        simp [mroProbe, dget, hd1, hbase, hw rn rest]
      have hs2 : mroProbe eh.cached_handlers none ts.baseExc (ts.mro exc.cls)
          = Option.map some (specWalk eh.cached_handlers none ts.baseExc rest) := by
        rw [hmro]
        simp [mroProbe, dget, hd2, hbase, hw none rest]
      have hdrop : (ts.mro exc.cls).drop 1 = rest := by rw [hmro]; rfl
      cases w1 : specWalk eh.cached_handlers rn ts.baseExc rest with
      | some h =>
          simp [ErrorHandler.lookup, h1, scopeLoop, hs1, w1,
            specUncachedResolve, hsx, hdrop]
      | none =>
          cases w2 : specWalk eh.cached_handlers none ts.baseExc rest with
          | some h =>
              simp [ErrorHandler.lookup, h1, scopeLoop, hs1, w1, hs2, w2,
                specUncachedResolve, hsx, hdrop]
          | none =>
              simp [ErrorHandler.lookup, h1, scopeLoop, hs1, w1, hs2, w2,
                specUncachedResolve, hsx, hdrop]

theorem noGarbage_dset {E H : Type} [DecidableEq E] (d : HDict E H)
    (k : E × Option String) (h : H) (hng : NoGarbage d) :
    NoGarbage (dset d k (some h)) := by
  intro k2
  simp only [dset]
  split
  · simp
  · exact hng k2

theorem noGarbage_addRoutes {E H : Type} [DecidableEq E] (exception : E)
    (handler : H) :
    ∀ (routes : List String) (acc : ErrorHandler E H),
      NoGarbage acc.cached_handlers →
      NoGarbage ((routes.foldl
        (fun acc route =>
          { acc with
            cached_handlers :=
              dset acc.cached_handlers (exception, some route) (some handler) })
        acc).cached_handlers) := by
  intro routes
  induction routes with
  | nil => intro acc h; exact h
  | cons r rs ih =>
      intro acc h
      exact ih _ (noGarbage_dset _ _ _ h)

theorem addReachable_noGarbage {E H : Type} [DecidableEq E]
    {eh : ErrorHandler E H} (h : AddReachable eh) :
    NoGarbage eh.cached_handlers := by
  induction h with
  | empty => intro k; simp [ErrorHandler.new]
  | step exception handler route_names hprev ih =>
      rcases route_names with _ | l
      · exact noGarbage_dset _ _ _ ih
      · rcases l with _ | ⟨r, rs⟩
        · exact noGarbage_dset _ _ _ ih
        · exact noGarbage_addRoutes exception handler (r :: rs) _ ih

theorem lookup_cached_some {E H : Type} [DecidableEq E] (ts : TypeSystem E)
    (eh : ErrorHandler E H) (exc : ExcInstance E) (rn : Option String) (h : H)
    (hc : eh.cached_handlers (exc.cls, rn) = some (some h)) :
    (eh.lookup ts exc rn).1 = some h := by
  simp [ErrorHandler.lookup, exactProbe, dget, hc]

theorem lookup_cached_none {E H : Type} [DecidableEq E] (ts : TypeSystem E)
    (eh : ErrorHandler E H) (exc : ExcInstance E) (rn : Option String)
    (rest : List E) (hmro : ts.mro exc.cls = exc.cls :: rest)
    (hc : eh.cached_handlers (exc.cls, rn) = some none)
    (hg : rn = none ∨
      ∀ x : H, eh.cached_handlers (exc.cls, none) ≠ some (some x)) :
    (eh.lookup ts exc rn).1 = none := by
  have hex : exactProbe eh.cached_handlers exc.cls [rn, none] = none := by
    rcases hg with hg | hg
    · subst hg
      simp [exactProbe, dget, hc]
    · rcases hv : eh.cached_handlers (exc.cls, none) with _ | v
      · simp [exactProbe, dget, hc, hv]
      · rcases v with _ | x
        · simp [exactProbe, dget, hc, hv]
        · exact absurd hv (hg x)
  have hsl : scopeLoop eh.cached_handlers ts exc.cls [rn, none] = some none := by
    have hmp : mroProbe eh.cached_handlers rn ts.baseExc (ts.mro exc.cls)
        = some none := by
      rw [hmro]
      simp [mroProbe, dget, hc]
    simp [scopeLoop, hmp]
  simp [ErrorHandler.lookup, hex, hsl]

theorem lookup_repeat {E H : Type} [DecidableEq E] (ts : TypeSystem E)
    (eh : ErrorHandler E H) (exc : ExcInstance E) (rn : Option String)
    (rest : List E) (hmro : ts.mro exc.cls = exc.cls :: rest) :
    ((eh.lookup ts exc rn).2.lookup ts exc rn).1 = (eh.lookup ts exc rn).1 := by
  cases h1 : exactProbe eh.cached_handlers exc.cls [rn, none] with
  | some h => simp [ErrorHandler.lookup, h1]
  | none =>
      obtain ⟨ht1, h1b⟩ := exactProbe_none_head _ _ _ _ h1
      obtain ⟨ht2, _⟩ := exactProbe_none_head _ _ _ _ h1b
      have hglob : rn = none ∨
          ∀ x : H, (dset eh.cached_handlers (exc.cls, rn) none) (exc.cls, none)
            ≠ some (some x) := by
        by_cases hrn : rn = none
        · exact Or.inl hrn
        · refine Or.inr fun x hx => ?_
          have hne : ((exc.cls, none) : E × Option String) ≠ (exc.cls, rn) :=
            fun hk => hrn ((congrArg Prod.snd hk).symm)
          have hx3 : dget (dset eh.cached_handlers (exc.cls, rn) none)
              (exc.cls, none) = some (some x) := hx
          rw [dset_other _ _ _ _ hne] at hx3
          exact ht2 x hx3
      cases h2 : scopeLoop eh.cached_handlers ts exc.cls [rn, none] with
      | some v =>
          have hst1 : (eh.lookup ts exc rn).1 = v := by
            simp [ErrorHandler.lookup, h1, h2]
          have hst2 : (eh.lookup ts exc rn).2
              = { eh with
                  cached_handlers :=
                    dset eh.cached_handlers (exc.cls, rn) v } := by
            simp [ErrorHandler.lookup, h1, h2]
          rw [hst1, hst2]
          rcases v with _ | h
          · exact lookup_cached_none ts _ exc rn rest hmro
              (dset_same eh.cached_handlers (exc.cls, rn) none) hglob
          · exact lookup_cached_some ts _ exc rn h
              (dset_same eh.cached_handlers (exc.cls, rn) (some h))
      | none =>
          have hst1 : (eh.lookup ts exc rn).1 = none := by
            simp [ErrorHandler.lookup, h1, h2]
          have hst2 : (eh.lookup ts exc rn).2
              = { eh with
                  cached_handlers :=
                    dset eh.cached_handlers (exc.cls, rn) none } := by
            simp [ErrorHandler.lookup, h1, h2]
          rw [hst1, hst2]
          exact lookup_cached_none ts _ exc rn rest hmro
            (dset_same eh.cached_handlers (exc.cls, rn) none) hglob

/-- C3 counterexample.  `c3Registry` is built by `add` calls only (all
registration completes before the first resolve).  Under the
multiple-inheritance hierarchy `tsDiamond`, resolving a `cB` instance at
scope `"r"` caches the global `cExc` handler `2` at `(cB, "r")`; a
subsequent resolve of a `cC` instance at scope `"r"` then hits that
cached entry on its route-scope mro walk and returns `2`, whereas the
uncached resolution over the registered entries returns the route-scoped
`cX` handler `1`.  The cache therefore diverges from the uncached result
even though all adds preceded all resolves. -/
theorem C3_counterexample :
    AddReachable c3Registry ∧
    (c3AfterFirstResolve.lookup tsDiamond (inst PyType.cC) (some "r")).1 = some 2 ∧
    specUncachedResolve tsDiamond c3Registry.cached_handlers PyType.cC (some "r")
      = some 1 := by
  refine ⟨?_, by decide, by decide⟩
  exact AddReachable.step _ _ _ (AddReachable.step _ _ _ AddReachable.empty)

/-- C3 (amended): (1) a resolve performed on a state reached by `add`
operations only (no earlier resolves) returns exactly the uncached
resolution over the registered entries, for any runtime type that heads
its own mro and is not the universal base; (2) resolving the same
`(type, scope)` pair twice in succession returns the identical handler
(or identical absence), from any state.  The original claim's stronger
"regardless of which other resolve calls came before" is refuted by the
counterexample. -/
theorem C3_theorem {E H : Type} [DecidableEq E] (ts : TypeSystem E) :
    (∀ (eh : ErrorHandler E H) (exc : ExcInstance E) (rn : Option String)
        (rest : List E),
        AddReachable eh →
        ts.mro exc.cls = exc.cls :: rest →
        exc.cls ≠ ts.baseExc →
        (eh.lookup ts exc rn).1
          = specUncachedResolve ts eh.cached_handlers exc.cls rn) ∧
    (∀ (eh : ErrorHandler E H) (exc : ExcInstance E) (rn : Option String)
        (rest : List E),
        ts.mro exc.cls = exc.cls :: rest →
        ((eh.lookup ts exc rn).2.lookup ts exc rn).1
          = (eh.lookup ts exc rn).1) := by
  constructor
  · intro eh exc rn rest har hmro hbase
    exact lookup_eq_spec ts eh exc rn rest (addReachable_noGarbage har) hmro hbase
  · intro eh exc rn rest hmro
    exact lookup_repeat ts eh exc rn rest hmro

/-- C3 witness: on the add-only registry `c1Registry`, resolving a `cC`
instance at scope `"r"` agrees with the uncached resolution. -/
theorem C3_witness :
    (c1Registry.lookup tsLinear (inst PyType.cC) (some "r")).1
      = specUncachedResolve tsLinear c1Registry.cached_handlers PyType.cC
          (some "r") :=
  (C3_theorem tsLinear).1 c1Registry (inst PyType.cC) (some "r")
    [PyType.cB, PyType.cA, PyType.cExc, PyType.cBase, PyType.cObj]
    (AddReachable.step _ _ _ (AddReachable.step _ _ _ AddReachable.empty))
    rfl (by decide)
